import Mathlib

/-!
# Verification of the statistical core of `dnstest.py`

A shallow embedding of the measurement/aggregation logic of `src/dnstest.py`.

The network and the wall clock are modelled as an oracle: each resolution
attempt for a (resolver, domain) pair either yields an elapsed time in seconds
(the difference of the two `time.time()` calls, a rational since floats are
rationals) or raises an exception.  The external statistics library functions
are modelled as follows:

* `np.std(times, ddof=1)` is `Real.sqrt` of the Bessel-corrected sample
  variance (exact rational arithmetic on the samples);
* `np.sqrt(n)` is `Real.sqrt n`;
* `scipy.stats.t.interval(0.95, df, loc, scale)` is
  `(loc - t * scale, loc + t * scale)` where `t` is the two-sided 0.95 /
  one-sided 0.975 Student-t critical value for `df` degrees of freedom.
  The critical value itself is external to the repository, so it enters the
  embedding as an explicit parameter `tppf : ℕ → ℝ` (scipy's
  `t.ppf(0.975, df)`); theorems that need concrete numerics carry numeric
  bounds on `tppf` as hypotheses (e.g. `t.ppf(0.975, 4) = 2.77644…`).

Python exceptions are modelled with `Except`:
* `test_dns` returns the Python tuple it builds, as a `List PyVal`: a 4-tuple
  on success and — exactly as in the source, line 65 — a **3**-tuple
  `(None, None, None)` on a resolution failure;
* `test_domains` unpacks that tuple into four names (line 84); unpacking a
  3-element tuple into 4 names raises `ValueError` in Python, modelled by
  `unpack4` returning `Except.error PyError.valueErrorUnpack`;
* `sum(overall_times) / len(overall_times)` raises `ZeroDivisionError` when
  the list is empty (line 92), modelled by `PyError.zeroDivisionError`.

Known junk values of the embedding (all outside the paths the theorems use,
and each matching an exceptional/NaN behaviour of the source noted in place):
rational division by zero is `0` in Lean, so `avg_time times 0` is junk
(Python raises `ZeroDivisionError` at line 67 if `num_measurements = 0`), and
`sampleVar` of a list of length `≤ 1` is junk (numpy produces `nan` with a
warning for `ddof=1` on a single sample).  All theorems below assume sample
counts that avoid these corners, as the configured program does
(`num_measurements = 50`, 17 domains).
-/

/-- Outcome of one resolution attempt of the loop body (lines 58-65 of
`dnstest.py`): the elapsed wall-clock time in seconds, or an exception raised
by `resolver.resolve`. -/
inductive AttemptResult
  | ok (elapsed : ℚ)
  | err (msg : String)

/-- The Python values that flow through the result tuples of `dnstest.py`:
`None`, a float (elapsed-time statistics, exact rationals here), or the
confidence-interval pair (real-valued because of the square root). -/
inductive PyVal
  | none
  | num (q : ℚ)
  | interval (lo hi : ℝ)

/-- The Python exceptions `test_domains` can raise. -/
inductive PyError
  | valueErrorUnpack
  | zeroDivisionError
  deriving DecidableEq

/-- The sampling loop of `test_dns` (lines 57-65): run the attempts in order,
converting each elapsed time to milliseconds (`(end_time - start_time) * 1000`,
line 62); on the first failure the whole batch is discarded (`return` inside
the `except` arm, line 65), modelled by `Option.none`. -/
def runSamples : List AttemptResult → Option (List ℚ)
  | [] => some []
  | AttemptResult.ok s :: rest => (runSamples rest).map (fun ts => s * 1000 :: ts)
  | AttemptResult.err _ :: _ => Option.none

/-- `avg_time = sum(times) / num_measurements` (line 67). -/
def avg_time (times : List ℚ) (n : ℕ) : ℚ := times.sum / n

/-- Python `min` over a (nonempty) list, as in `min_time = min(times)`
(line 68).  Python raises on an empty list; that path is unreachable in the
program (`num_measurements = 50`), and the embedding returns junk `0` there. -/
def pymin : List ℚ → ℚ
  | [] => 0
  | x :: xs => xs.foldl min x

/-- Python `max` over a (nonempty) list, as in `max_time = max(times)`
(line 69). -/
def pymax : List ℚ → ℚ
  | [] => 0
  | x :: xs => xs.foldl max x

/-- The Bessel-corrected sample variance computed inside
`np.std(times, ddof=1)` (line 71): mean over `len(times)`, squared deviations
summed and divided by `len(times) - 1`. -/
def sampleVar (times : List ℚ) : ℚ :=
  (times.map (fun x => (x - times.sum / times.length) ^ 2)).sum /
    ((times.length : ℚ) - 1)

/-- `std_dev = np.std(times, ddof=1)` (line 71): the square root of the
sample variance. -/
noncomputable def np_std (times : List ℚ) : ℝ := Real.sqrt (sampleVar times)

/-- `std_err = std_dev / np.sqrt(num_measurements)` (line 72). -/
noncomputable def std_err (s : ℝ) (n : ℕ) : ℝ := s / Real.sqrt n

/-- `scipy.stats.t.interval(0.95, df, loc, scale)` for the symmetric Student-t
distribution: `(loc - t * scale, loc + t * scale)` where `t` is the critical
value `t.ppf(0.975, df)`. -/
def t_interval (t loc scale : ℝ) : ℝ × ℝ := (loc - t * scale, loc + t * scale)

/-- The confidence interval of `test_dns` (line 73):
`stats.t.interval(0.95, num_measurements - 1, loc=avg_time, scale=std_err)`,
with the critical-value table `tppf` passed in. -/
noncomputable def confidence_interval (tppf : ℕ → ℝ) (times : List ℚ) (n : ℕ) : ℝ × ℝ :=
  t_interval (tppf (n - 1)) (avg_time times n) (std_err (np_std times) n)

/-- `test_dns(dns_server, domain, num_measurements)` (lines 52-75): the tuple
it returns, as a list of Python values.  On a resolution failure the 3-tuple
`(None, None, None)` of line 65; on success the 4-tuple of line 75.  The
network behaviour of the (resolver, domain) pair is the oracle `attempts`. -/
noncomputable def test_dns (tppf : ℕ → ℝ) (attempts : ℕ → AttemptResult) (n : ℕ) :
    List PyVal :=
  match runSamples ((List.range n).map attempts) with
  | Option.none => [PyVal.none, PyVal.none, PyVal.none]
  | some times =>
      [PyVal.num (avg_time times n), PyVal.num (pymin times), PyVal.num (pymax times),
       PyVal.interval (confidence_interval tppf times n).1
         (confidence_interval tppf times n).2]

/-- The per-domain stat tuple `(domain, avg_time, min_time, max_time,
confidence_interval)` appended at line 87. -/
abbrev DomainStat := String × PyVal × PyVal × PyVal × PyVal

/-- Python tuple unpacking `avg_time, min_time, max_time, confidence_interval
= test_dns(...)` (line 84): succeeds only when the right-hand side has exactly
4 elements, otherwise raises `ValueError`. -/
def unpack4 (l : List PyVal) : Except PyError (PyVal × PyVal × PyVal × PyVal) :=
  match l with
  | [a, b, c, d] => Except.ok (a, b, c, d)
  | _ => Except.error PyError.valueErrorUnpack

/-- Extract the float from a `PyVal` (the value appended to `overall_times` at
line 86 after the `is not None` check; on that path it is always a number). -/
def pyNum : PyVal → ℚ
  | PyVal.num q => q
  | _ => 0

/-- The domain loop of `test_domains` (lines 83-90): for each domain call
`test_dns`, unpack its tuple into four names, and when `avg_time is not None`
append the mean to `overall_times` and the stat tuple to `domain_stats`.
Each domain carries its own attempt oracle. -/
noncomputable def sweep (tppf : ℕ → ℝ) (n : ℕ) :
    List (String × (ℕ → AttemptResult)) → Except PyError (List ℚ × List DomainStat)
  | [] => Except.ok ([], [])
  | (name, att) :: rest =>
    match unpack4 (test_dns tppf att n) with
    | Except.error e => Except.error e
    | Except.ok (a, mn, mx, ci) =>
      match sweep tppf n rest with
      | Except.error e => Except.error e
      | Except.ok (ts, stats) =>
        match a with
        | PyVal.none => Except.ok (ts, stats)
        | a => Except.ok (pyNum a :: ts, (name, a, mn, mx, ci) :: stats)

/-- The resolver-level aggregation of `test_domains` (lines 92-97):
`overall_avg = sum(overall_times) / len(overall_times)` raises
`ZeroDivisionError` on an empty list; otherwise min, max, `np.std(·, ddof=1)`,
standard error with `len(overall_times)`, and the t-interval with
`len(overall_times) - 1` degrees of freedom. -/
noncomputable def overall_stats (tppf : ℕ → ℝ) (ts : List ℚ) :
    Except PyError (ℚ × ℚ × ℚ × (ℝ × ℝ)) :=
  if ts.length = 0 then Except.error PyError.zeroDivisionError
  else
    Except.ok (ts.sum / ts.length, pymin ts, pymax ts,
      t_interval (tppf (ts.length - 1)) (ts.sum / ts.length)
        (std_err (np_std ts) ts.length))

/-- `test_domains(dns_server, domains, num_measurements, verbose)`
(lines 79-99): run the domain sweep, then the resolver-level aggregation, and
return `(overall_avg, overall_min, overall_max, overall_confidence_interval,
domain_stats)` — modulo exceptions, which propagate. -/
noncomputable def test_domains (tppf : ℕ → ℝ)
    (doms : List (String × (ℕ → AttemptResult))) (n : ℕ) :
    Except PyError ((ℚ × ℚ × ℚ × (ℝ × ℝ)) × List DomainStat) :=
  match sweep tppf n doms with
  | Except.error e => Except.error e
  | Except.ok (ts, stats) =>
    match overall_stats tppf ts with
    | Except.error e => Except.error e
    | Except.ok r => Except.ok (r, stats)

/-- An attempt oracle that always succeeds in 0.05 s (50 ms). -/
def okAtt : ℕ → AttemptResult := fun _ => AttemptResult.ok (1 / 20)

/-- An attempt oracle whose 3rd attempt (index 2) raises, as in the spec
scenario "the 3rd of 5 attempts raises an error". -/
def badAtt : ℕ → AttemptResult := fun i =>
  if i = 2 then AttemptResult.err "The resolution lifetime expired"
  else AttemptResult.ok (1 / 20)

/-- Claim C1: a sampling batch whose 3rd of 5 attempts fails makes `test_dns`
return the `(None, None, None)` sentinel — that half of the claim holds — but
`test_domains` does **not** exclude the pair from the aggregation: unpacking
the 3-tuple into four names raises `ValueError`, so the whole resolver run
aborts instead of reporting the surviving domain. -/
theorem c1_failure_crashes_test_domains :
    test_dns (fun _ => 0) badAtt 5 = [PyVal.none, PyVal.none, PyVal.none] ∧
    test_domains (fun _ => 0) [("google.com", okAtt), ("orf.at", badAtt)] 5 =
      Except.error PyError.valueErrorUnpack := by
  constructor
  · have h : runSamples ((List.range 5).map badAtt) = Option.none := by
      simp [List.range_succ, badAtt, runSamples]
    simp [test_dns, h]
  · have h : runSamples ((List.range 5).map badAtt) = Option.none := by
      simp [List.range_succ, badAtt, runSamples]
    have hok : runSamples ((List.range 5).map okAtt) =
        some [50, 50, 50, 50, 50] := by
      simp [List.range_succ, okAtt, runSamples]
      norm_num
    simp [test_domains, sweep, test_dns, h, hok, unpack4]

/-- Claim C2: with a nonempty domain list on which every sampling batch fails,
`test_domains` does not reach the division — it raises `ValueError` at the
tuple unpacking first.  The division by zero the claim describes does exist at
line 92 (`overall_stats` of an empty mean list is `ZeroDivisionError`), but
with the code as written it is reached only when the domain list itself is
empty. -/
theorem c2_all_fail_raises_unpack_not_div_zero :
    test_domains (fun _ => 0) [("google.com", badAtt)] 5 =
      Except.error PyError.valueErrorUnpack ∧
    overall_stats (fun _ => 0) [] = Except.error PyError.zeroDivisionError := by
  constructor
  · have h : runSamples ((List.range 5).map badAtt) = Option.none := by
      simp [List.range_succ, badAtt, runSamples]
    simp [test_domains, sweep, test_dns, h, unpack4]
  · simp [overall_stats]

/-- Claim C3: the resolver-level aggregation is never computed over a proper
subset of the configured domains: when the 2nd of 3 domains fails, the code
does not exclude it and aggregate the other two (which would use N = 2) — it
raises `ValueError` at the unpacking and returns no resolver statistics at
all. -/
theorem c3_partial_success_crashes :
    test_domains (fun _ => 0)
      [("google.com", okAtt), ("orf.at", badAtt), ("apple.com", okAtt)] 5 =
      Except.error PyError.valueErrorUnpack := by
  have h : runSamples ((List.range 5).map badAtt) = Option.none := by
    simp [List.range_succ, badAtt, runSamples]
  have hok : runSamples ((List.range 5).map okAtt) =
      some [50, 50, 50, 50, 50] := by
    simp [List.range_succ, okAtt, runSamples]
    norm_num
  simp [test_domains, sweep, test_dns, h, hok, unpack4]

/-- A batch of `n` attempts that all succeed. -/
def AllOk (att : ℕ → AttemptResult) (n : ℕ) : Prop :=
  ∀ i < n, ∃ s, att i = AttemptResult.ok s

lemma runSamples_ok (l : List AttemptResult)
    (h : ∀ a ∈ l, ∃ s, a = AttemptResult.ok s) :
    ∃ ts, runSamples l = some ts ∧ ts.length = l.length := by
  induction l with
  | nil => exact ⟨[], rfl, rfl⟩
  | cons a rest ih =>
    obtain ⟨s, rfl⟩ := h a (List.mem_cons_self a rest)
    obtain ⟨ts, hts, hlen⟩ := ih (fun x hx => h x (List.mem_cons_of_mem _ hx))
    exact ⟨s * 1000 :: ts, by simp [runSamples, hts], by simp [hlen]⟩

lemma test_dns_ok (tppf : ℕ → ℝ) (att : ℕ → AttemptResult) (n : ℕ)
    (h : AllOk att n) :
    ∃ ts, runSamples ((List.range n).map att) = some ts ∧ ts.length = n ∧
      test_dns tppf att n =
        [PyVal.num (avg_time ts n), PyVal.num (pymin ts), PyVal.num (pymax ts),
         PyVal.interval (confidence_interval tppf ts n).1
           (confidence_interval tppf ts n).2] := by
  obtain ⟨ts, hts, hlen⟩ := runSamples_ok ((List.range n).map att) (by
    intro a ha
    obtain ⟨i, hi, rfl⟩ := List.mem_map.mp ha
    exact h i (List.mem_range.mp hi))
  refine ⟨ts, hts, by simpa using hlen, ?_⟩
  simp [test_dns, hts]

lemma sweep_ok (tppf : ℕ → ℝ) (n : ℕ)
    (doms : List (String × (ℕ → AttemptResult)))
    (h : ∀ d ∈ doms, AllOk d.2 n) :
    ∃ stats : List DomainStat,
      sweep tppf n doms =
        Except.ok (stats.map (fun st => pyNum st.2.1), stats) ∧
      stats.map Prod.fst = doms.map Prod.fst ∧
      stats.length = doms.length := by
  induction doms with
  | nil => exact ⟨[], rfl, rfl, rfl⟩
  | cons d rest ih =>
    obtain ⟨name, att⟩ := d
    obtain ⟨ts, _, _, hdns⟩ :=
      test_dns_ok tppf att n (h (name, att) (List.mem_cons_self _ _))
    obtain ⟨stats, hsw, hmap, hlen⟩ :=
      ih (fun x hx => h x (List.mem_cons_of_mem _ hx))
    refine ⟨(name, PyVal.num (avg_time ts n), PyVal.num (pymin ts),
      PyVal.num (pymax ts),
      PyVal.interval (confidence_interval tppf ts n).1
        (confidence_interval tppf ts n).2) :: stats, ?_, ?_, ?_⟩
    · simp [sweep, hdns, unpack4, hsw, pyNum]
    · simpa using hmap
    · simpa using hlen

/-- Claim C9, counterexample to the claim as stated: the empty domain list is
(vacuously) a list "in which every domain succeeds", but `test_domains` does
not return ordered stats with the resolver mean over them — it raises
`ZeroDivisionError` in the aggregation. -/
theorem c9_empty_list_counterexample :
    test_domains (fun _ => 0) [] 50 = Except.error PyError.zeroDivisionError := by
  simp [test_domains, sweep, overall_stats]

/-- Claim C9 (amended: nonempty domain list, at least one measurement per
batch as configured): when every domain's sampling succeeds, `test_domains`
returns `domain_stats` in the same relative order as the input domains, each
entry's recorded mean is the one appended to `overall_times`, the two lists
have equal length (= the number of domains), and the resolver-level mean is
exactly the arithmetic mean of the returned per-domain means. -/
theorem c9_all_success_order_and_mean (tppf : ℕ → ℝ)
    (doms : List (String × (ℕ → AttemptResult))) (n : ℕ)
    (hne : doms ≠ []) (hn : 1 ≤ n)
    (h : ∀ d ∈ doms, AllOk d.2 n) :
    ∃ (stats : List DomainStat) (r : ℚ × ℚ × ℚ × (ℝ × ℝ)),
      sweep tppf n doms =
        Except.ok (stats.map (fun st => pyNum st.2.1), stats) ∧
      stats.map Prod.fst = doms.map Prod.fst ∧
      stats.length = doms.length ∧
      (stats.map (fun st => pyNum st.2.1)).length = doms.length ∧
      test_domains tppf doms n = Except.ok (r, stats) ∧
      r.1 = (stats.map (fun st => pyNum st.2.1)).sum /
        ((stats.map (fun st => pyNum st.2.1)).length : ℚ) := by
  obtain ⟨stats, hsw, hmap, hlen⟩ := sweep_ok tppf n doms h
  have hlen2 : (stats.map (fun st => pyNum st.2.1)).length = doms.length := by
    simpa using hlen
  have hpos : (stats.map (fun st => pyNum st.2.1)).length ≠ 0 := by
    rw [hlen2]
    simpa using hne
  refine ⟨stats,
    ((stats.map (fun st => pyNum st.2.1)).sum /
        ((stats.map (fun st => pyNum st.2.1)).length : ℚ),
      pymin (stats.map (fun st => pyNum st.2.1)),
      pymax (stats.map (fun st => pyNum st.2.1)),
      t_interval (tppf ((stats.map (fun st => pyNum st.2.1)).length - 1))
        ((stats.map (fun st => pyNum st.2.1)).sum /
          ((stats.map (fun st => pyNum st.2.1)).length : ℚ))
        (std_err (np_std (stats.map (fun st => pyNum st.2.1)))
          (stats.map (fun st => pyNum st.2.1)).length)),
    hsw, hmap, hlen, hlen2, ?_, rfl⟩
  have hpos' : stats.length ≠ 0 := by simpa using hpos
  simp [test_domains, hsw, overall_stats, hpos']

/-- Witness for the amended Claim C9 at a concrete input: one domain, five
successful attempts of 50 ms each. -/
theorem c9_witness :
    (([("google.com", okAtt)] : List (String × (ℕ → AttemptResult))) ≠ [] ∧
     1 ≤ 5 ∧
     ∀ d ∈ ([("google.com", okAtt)] : List (String × (ℕ → AttemptResult))),
       AllOk d.2 5) ∧
    ∃ (stats : List DomainStat) (r : ℚ × ℚ × ℚ × (ℝ × ℝ)),
      sweep (fun _ => 0) 5 [("google.com", okAtt)] =
        Except.ok (stats.map (fun st => pyNum st.2.1), stats) ∧
      stats.map Prod.fst = [("google.com", okAtt)].map Prod.fst ∧
      stats.length = [("google.com", okAtt)].length ∧
      (stats.map (fun st => pyNum st.2.1)).length =
        [("google.com", okAtt)].length ∧
      test_domains (fun _ => 0) [("google.com", okAtt)] 5 =
        Except.ok (r, stats) ∧
      r.1 = (stats.map (fun st => pyNum st.2.1)).sum /
        ((stats.map (fun st => pyNum st.2.1)).length : ℚ) := by
  have hne : ([("google.com", okAtt)] : List (String × (ℕ → AttemptResult))) ≠ [] := by
    simp
  have hok : ∀ d ∈ ([("google.com", okAtt)] :
      List (String × (ℕ → AttemptResult))), AllOk d.2 5 := by
    intro d hd
    rw [List.mem_singleton] at hd
    subst hd
    intro i _
    exact ⟨1 / 20, rfl⟩
  exact ⟨⟨hne, by norm_num, hok⟩,
    c9_all_success_order_and_mean (fun _ => 0) _ 5 hne (by norm_num) hok⟩

lemma foldl_min_le_init (l : List ℚ) (a : ℚ) : l.foldl min a ≤ a := by
  induction l generalizing a with
  | nil => exact le_refl a
  | cons b t ih => exact le_trans (ih (min a b)) (min_le_left a b)

lemma foldl_min_le_mem (l : List ℚ) (a x : ℚ) (hx : x ∈ l) :
    l.foldl min a ≤ x := by
  induction l generalizing a with
  | nil => cases hx
  | cons b t ih =>
    rcases List.mem_cons.mp hx with rfl | hx
    · exact le_trans (foldl_min_le_init t (min a x)) (min_le_right a x)
    · exact ih (min a b) hx

lemma init_le_foldl_max (l : List ℚ) (a : ℚ) : a ≤ l.foldl max a := by
  induction l generalizing a with
  | nil => exact le_refl a
  | cons b t ih => exact le_trans (le_max_left a b) (ih (max a b))

lemma mem_le_foldl_max (l : List ℚ) (a x : ℚ) (hx : x ∈ l) :
    x ≤ l.foldl max a := by
  induction l generalizing a with
  | nil => cases hx
  | cons b t ih =>
    rcases List.mem_cons.mp hx with rfl | hx
    · exact le_trans (le_max_right a x) (init_le_foldl_max t (max a x))
    · exact ih (max a b) hx

lemma pymin_le_mem (l : List ℚ) (x : ℚ) (hx : x ∈ l) : pymin l ≤ x := by
  cases l with
  | nil => cases hx
  | cons a t =>
    rcases List.mem_cons.mp hx with rfl | hx
    · exact foldl_min_le_init t x
    · exact foldl_min_le_mem t a x hx

lemma mem_le_pymax (l : List ℚ) (x : ℚ) (hx : x ∈ l) : x ≤ pymax l := by
  cases l with
  | nil => cases hx
  | cons a t =>
    rcases List.mem_cons.mp hx with rfl | hx
    · exact init_le_foldl_max t x
    · exact mem_le_foldl_max t a x hx

lemma sum_le_length_mul (l : List ℚ) (c : ℚ) (h : ∀ x ∈ l, x ≤ c) :
    l.sum ≤ l.length * c := by
  induction l with
  | nil => simp
  | cons a t ih =>
    have ha := h a (List.mem_cons_self a t)
    have ht := ih (fun x hx => h x (List.mem_cons_of_mem _ hx))
    simp only [List.sum_cons, List.length_cons]
    push_cast
    linarith

lemma length_mul_le_sum (l : List ℚ) (c : ℚ) (h : ∀ x ∈ l, c ≤ x) :
    l.length * c ≤ l.sum := by
  induction l with
  | nil => simp
  | cons a t ih =>
    have ha := h a (List.mem_cons_self a t)
    have ht := ih (fun x hx => h x (List.mem_cons_of_mem _ hx))
    simp only [List.sum_cons, List.length_cons]
    push_cast
    linarith

/-- Claim C5: for every sequence of at least two positive samples, the
arithmetic mean `avg_time` (with `num_measurements` equal to the number of
samples, as on the success path of `test_dns`) lies within
`[min(samples), max(samples)]`. -/
theorem c5_mean_between_min_max (times : List ℚ)
    (hlen : 2 ≤ times.length) (hpos : ∀ x ∈ times, 0 < x) :
    pymin times ≤ avg_time times times.length ∧
    avg_time times times.length ≤ pymax times := by
  have hne : times ≠ [] := by
    intro h
    rw [h] at hlen
    simp at hlen
  have hlpos : (0 : ℚ) < (times.length : ℚ) := by
    have : 0 < times.length := by omega
    exact_mod_cast this
  constructor
  · rw [avg_time, le_div_iff hlpos, mul_comm]
    exact length_mul_le_sum times (pymin times)
      (fun x hx => pymin_le_mem times x hx)
  · rw [avg_time, div_le_iff hlpos, mul_comm]
    exact sum_le_length_mul times (pymax times)
      (fun x hx => mem_le_pymax times x hx)

/-- Witness for Claim C5 at the concrete samples `[10, 30]`. -/
theorem c5_witness :
    (2 ≤ ([10, 30] : List ℚ).length ∧ ∀ x ∈ ([10, 30] : List ℚ), 0 < x) ∧
    (pymin [10, 30] ≤ avg_time [10, 30] ([10, 30] : List ℚ).length ∧
     avg_time [10, 30] ([10, 30] : List ℚ).length ≤ pymax [10, 30]) :=
  ⟨⟨by norm_num, by decide⟩,
    c5_mean_between_min_max [10, 30] (by norm_num) (by decide)⟩

/-- Claim C6: for every sequence of at least two samples, the 95% confidence
interval of the Aggregator is exactly symmetric around the mean:
`mean - low = high - mean` (exact in the real-valued model; the claim's
"within floating-point tolerance" allows for the binary64 evaluation). -/
theorem c6_interval_symmetric (tppf : ℕ → ℝ) (times : List ℚ)
    (hlen : 2 ≤ times.length) :
    ((avg_time times times.length : ℚ) : ℝ) -
        (confidence_interval tppf times times.length).1 =
      (confidence_interval tppf times times.length).2 -
        ((avg_time times times.length : ℚ) : ℝ) := by
  simp only [confidence_interval, t_interval]
  ring

/-- Witness for Claim C6 at the concrete samples `[10, 30]` and the critical
value `t.ppf(0.975, 1) = 12.7062…` (any value works; symmetry is exact). -/
theorem c6_witness :
    2 ≤ ([10, 30] : List ℚ).length ∧
    ((avg_time [10, 30] ([10, 30] : List ℚ).length : ℚ) : ℝ) -
        (confidence_interval (fun _ => 12.7062) [10, 30]
          ([10, 30] : List ℚ).length).1 =
      (confidence_interval (fun _ => 12.7062) [10, 30]
          ([10, 30] : List ℚ).length).2 -
        ((avg_time [10, 30] ([10, 30] : List ℚ).length : ℚ) : ℝ) :=
  ⟨by norm_num,
    c6_interval_symmetric (fun _ => 12.7062) [10, 30] (by norm_num)⟩
lemma sum_of_const (l : List ℚ) (c : ℚ) (hc : ∀ x ∈ l, x = c) :
    l.sum = l.length * c := by
  induction l with
  | nil => simp
  | cons a t ih =>
    have ha := hc a (List.mem_cons_self a t)
    have ht := ih (fun x hx => hc x (List.mem_cons_of_mem _ hx))
    simp only [List.sum_cons, List.length_cons, ha, ht]
    push_cast
    ring

lemma sampleVar_const (times : List ℚ) (c : ℚ) (hne : times ≠ [])
    (hc : ∀ x ∈ times, x = c) : sampleVar times = 0 := by
  have hlnz : ((times.length : ℚ)) ≠ 0 := by
    have : 0 < times.length := List.length_pos.mpr hne
    exact_mod_cast Nat.pos_iff_ne_zero.mp this
  have hmean : times.sum / (times.length : ℚ) = c := by
    rw [sum_of_const times c hc]
    field_simp
  have hmap : (times.map (fun x => (x - times.sum / times.length) ^ 2)).sum = 0 := by
    apply List.sum_eq_zero
    intro y hy
    obtain ⟨x, hx, rfl⟩ := List.mem_map.mp hy
    rw [hc x hx, hmean]
    ring
  rw [sampleVar, hmap, zero_div]

/-- Claim C7: if all samples in a sequence of at least two are identical (zero
variance), the confidence interval of the Aggregator collapses to the single
point `[mean, mean]`, whatever the t critical value is. -/
theorem c7_zero_variance_point_interval (tppf : ℕ → ℝ) (times : List ℚ)
    (c : ℚ) (hlen : 2 ≤ times.length) (hc : ∀ x ∈ times, x = c) :
    confidence_interval tppf times times.length =
      (((avg_time times times.length : ℚ) : ℝ),
       ((avg_time times times.length : ℚ) : ℝ)) := by
  have hne : times ≠ [] := by
    intro h
    rw [h] at hlen
    simp at hlen
  have hvar : sampleVar times = 0 := sampleVar_const times c hne hc
  simp [confidence_interval, t_interval, np_std, hvar, Real.sqrt_zero,
    std_err, zero_div]

/-- Witness for Claim C7 at the concrete samples `[5, 5]`. -/
theorem c7_witness :
    (2 ≤ ([5, 5] : List ℚ).length ∧ ∀ x ∈ ([5, 5] : List ℚ), x = 5) ∧
    confidence_interval (fun _ => 12.7062) [5, 5] ([5, 5] : List ℚ).length =
      (((avg_time [5, 5] ([5, 5] : List ℚ).length : ℚ) : ℝ),
       ((avg_time [5, 5] ([5, 5] : List ℚ).length : ℚ) : ℝ)) :=
  ⟨⟨by norm_num, by decide⟩,
    c7_zero_variance_point_interval (fun _ => 12.7062) [5, 5] 5
      (by norm_num) (by decide)⟩

lemma sampleVar_scenario : sampleVar [10, 20, 30, 40, 50] = 250 := by
  norm_num [sampleVar]

lemma np_std_scenario : np_std [10, 20, 30, 40, 50] = Real.sqrt 250 := by
  rw [np_std, sampleVar_scenario]
  norm_num

lemma sqrt250_bounds : (15.81 : ℝ) < Real.sqrt 250 ∧ Real.sqrt 250 < 15.82 :=
  ⟨(Real.lt_sqrt (by norm_num)).mpr (by norm_num),
   (Real.sqrt_lt' (by norm_num)).mpr (by norm_num)⟩

lemma std_err_scenario :
    std_err (np_std [10, 20, 30, 40, 50]) 5 = Real.sqrt 50 := by
  have h5 : ((5 : ℕ) : ℝ) = (5 : ℝ) := by norm_num
  rw [std_err, np_std_scenario, h5,
    ← Real.sqrt_div (by norm_num : (0:ℝ) ≤ 250) 5]
  norm_num

lemma sqrt50_bounds : (7.071 : ℝ) < Real.sqrt 50 ∧ Real.sqrt 50 < 7.0711 :=
  ⟨(Real.lt_sqrt (by norm_num)).mpr (by norm_num),
   (Real.sqrt_lt' (by norm_num)).mpr (by norm_num)⟩

/-- Claim C4: for the samples `[10, 20, 30, 40, 50]` (N = 5) the Aggregator
computes mean 30, min 10, max 50, sample standard deviation ≈ 15.81, standard
error ≈ 7.07, and — for the scipy critical value
`t.ppf(0.975, 4) = 2.77644…` — a 95% confidence interval ≈ [10.37, 49.63]. -/
theorem c4_scenario (tppf : ℕ → ℝ)
    (ht1 : 2.7764 ≤ tppf 4) (ht2 : tppf 4 ≤ 2.7765) :
    avg_time [10, 20, 30, 40, 50] 5 = 30 ∧
    pymin [10, 20, 30, 40, 50] = 10 ∧
    pymax [10, 20, 30, 40, 50] = 50 ∧
    |np_std [10, 20, 30, 40, 50] - 15.81| < 0.01 ∧
    |std_err (np_std [10, 20, 30, 40, 50]) 5 - 7.07| < 0.01 ∧
    |(confidence_interval tppf [10, 20, 30, 40, 50] 5).1 - 10.37| < 0.01 ∧
    |(confidence_interval tppf [10, 20, 30, 40, 50] 5).2 - 49.63| < 0.01 := by
  obtain ⟨hq1, hq2⟩ := sqrt250_bounds
  obtain ⟨hf1, hf2⟩ := sqrt50_bounds
  have htpos : (0 : ℝ) < tppf 4 := by linarith
  have hp1 : (2.7764 : ℝ) * 7.071 < tppf 4 * Real.sqrt 50 := by
    have := mul_lt_mul_of_pos_left hf1 htpos
    nlinarith
  have hp2 : tppf 4 * Real.sqrt 50 < (2.7765 : ℝ) * 7.0711 := by
    have hlt : tppf 4 * Real.sqrt 50 < tppf 4 * 7.0711 :=
      mul_lt_mul_of_pos_left hf2 htpos
    nlinarith
  refine ⟨by norm_num [avg_time], by norm_num [pymin], by norm_num [pymax],
    ?_, ?_, ?_, ?_⟩
  · rw [np_std_scenario, abs_lt]
    constructor <;> nlinarith
  · rw [std_err_scenario, abs_lt]
    constructor <;> nlinarith
  · have : (confidence_interval tppf [10, 20, 30, 40, 50] 5).1 =
        ((avg_time [10, 20, 30, 40, 50] 5 : ℚ) : ℝ) -
          tppf 4 * std_err (np_std [10, 20, 30, 40, 50]) 5 := rfl
    rw [this, std_err_scenario, abs_lt]
    norm_num [avg_time]
    constructor <;> nlinarith
  · have : (confidence_interval tppf [10, 20, 30, 40, 50] 5).2 =
        ((avg_time [10, 20, 30, 40, 50] 5 : ℚ) : ℝ) +
          tppf 4 * std_err (np_std [10, 20, 30, 40, 50]) 5 := rfl
    rw [this, std_err_scenario, abs_lt]
    norm_num [avg_time]
    constructor <;> nlinarith

/-- Witness for Claim C4 at the concrete critical value `2.77645`
(scipy gives `t.ppf(0.975, 4) = 2.7764451…`). -/
theorem c4_witness :
    ((2.7764 : ℝ) ≤ 2.77645 ∧ (2.77645 : ℝ) ≤ 2.7765) ∧
    (avg_time [10, 20, 30, 40, 50] 5 = 30 ∧
     pymin [10, 20, 30, 40, 50] = 10 ∧
     pymax [10, 20, 30, 40, 50] = 50 ∧
     |np_std [10, 20, 30, 40, 50] - 15.81| < 0.01 ∧
     |std_err (np_std [10, 20, 30, 40, 50]) 5 - 7.07| < 0.01 ∧
     |(confidence_interval (fun _ => 2.77645) [10, 20, 30, 40, 50] 5).1 -
        10.37| < 0.01 ∧
     |(confidence_interval (fun _ => 2.77645) [10, 20, 30, 40, 50] 5).2 -
        49.63| < 0.01) :=
  ⟨⟨by norm_num, by norm_num⟩,
    c4_scenario (fun _ => 2.77645) (by norm_num) (by norm_num)⟩

/-- Claim C8, counterexample to the claim as stated: for a batch of identical
samples the Aggregator's sample standard deviation is `0`, and holding it
fixed the standard error is `0` at every sample count — not *strictly*
decreasing in N (and the interval width does not narrow). -/
theorem c8_zero_stddev_counterexample :
    np_std [5, 5] = 0 ∧
    std_err (np_std [5, 5]) 2 = std_err (np_std [5, 5]) 3 := by
  have hvar : sampleVar [5, 5] = 0 :=
    sampleVar_const [5, 5] 5 (by simp) (by decide)
  have h : np_std [5, 5] = 0 := by
    rw [np_std, hvar]
    norm_num
  exact ⟨h, by rw [h, std_err, std_err, zero_div, zero_div]⟩

/-- Claim C8 (amended: for a *positive* standard deviation; for a zero
standard deviation the standard error is identically zero): holding the
sample standard deviation fixed, `std_err = stddev / sqrt(N)` is strictly
decreasing in N ≥ 1, and consequently — the Student-t critical value being
positive and nonincreasing in the degrees of freedom, as scipy's is — the
confidence interval produced by `t_interval` strictly narrows. -/
theorem c8_stderr_strictly_decreasing (s tp1 tp2 loc : ℝ) (n1 n2 : ℕ)
    (hs : 0 < s) (h1 : 1 ≤ n1) (h12 : n1 < n2)
    (htp : 0 < tp2) (htm : tp2 ≤ tp1) :
    std_err s n2 < std_err s n1 ∧
    (t_interval tp2 loc (std_err s n2)).2 -
        (t_interval tp2 loc (std_err s n2)).1 <
      (t_interval tp1 loc (std_err s n1)).2 -
        (t_interval tp1 loc (std_err s n1)).1 := by
  have hn1 : (0 : ℝ) < (n1 : ℝ) := by
    exact_mod_cast Nat.lt_of_lt_of_le Nat.zero_lt_one h1
  have hs1 : (0 : ℝ) < Real.sqrt n1 := Real.sqrt_pos.mpr hn1
  have hlt : Real.sqrt n1 < Real.sqrt n2 :=
    Real.sqrt_lt_sqrt (le_of_lt hn1) (by exact_mod_cast h12)
  have hse : std_err s n2 < std_err s n1 := by
    rw [std_err, std_err]
    gcongr
  have hse2 : 0 ≤ std_err s n2 := by
    rw [std_err]
    positivity
  have k1 : tp2 * std_err s n2 < tp2 * std_err s n1 :=
    mul_lt_mul_of_pos_left hse htp
  have k2 : tp2 * std_err s n1 ≤ tp1 * std_err s n1 :=
    mul_le_mul_of_nonneg_right htm (le_trans hse2 (le_of_lt hse))
  refine ⟨hse, ?_⟩
  simp only [t_interval]
  linarith

/-- Witness for the amended Claim C8: stddev 1, sample counts 2 and 3,
critical value 3 at both degrees of freedom. -/
theorem c8_witness :
    ((0 : ℝ) < 1 ∧ 1 ≤ 2 ∧ 2 < 3 ∧ (0 : ℝ) < 3 ∧ (3 : ℝ) ≤ 3) ∧
    (std_err 1 3 < std_err 1 2 ∧
     (t_interval 3 0 (std_err 1 3)).2 - (t_interval 3 0 (std_err 1 3)).1 <
       (t_interval 3 0 (std_err 1 2)).2 - (t_interval 3 0 (std_err 1 2)).1) :=
  ⟨⟨by norm_num, by norm_num, by norm_num, by norm_num, by norm_num⟩,
    c8_stderr_strictly_decreasing 1 3 3 0 2 3 (by norm_num) (by norm_num)
      (by norm_num) (by norm_num) (by norm_num)⟩

lemma std_err_pair : std_err (np_std [1, 2]) 2 = 1 / 2 := by
  have hvar : sampleVar [1, 2] = 1 / 2 := by
    norm_num [sampleVar]
  have h2 : ((2 : ℕ) : ℝ) = (2 : ℝ) := by norm_num
  rw [std_err, np_std, hvar, h2]
  rw [show (((1 / 2 : ℚ)) : ℝ) = (1 / 2 : ℝ) by norm_num]
  rw [← Real.sqrt_div (by norm_num : (0:ℝ) ≤ 1 / 2) 2]
  rw [show ((1 / 2 : ℝ) / 2) = (1 / 2 : ℝ) ^ 2 by norm_num]
  exact Real.sqrt_sq (by norm_num)

/-- Claim C10: for the strictly positive samples `[1, 2]` (N = 2) the lower
bound of the 95% confidence interval is strictly below the sample minimum and
even negative — the interval is not clamped to the observed range or to
nonnegative latencies.  (scipy's critical value `t.ppf(0.975, 1) = 12.7062…`
satisfies the `12 ≤ t` bound assumed here.) -/
theorem c10_interval_not_clamped (tppf : ℕ → ℝ) (ht : 12 ≤ tppf 1) :
    (∀ x ∈ ([1, 2] : List ℚ), 0 < x) ∧ 2 ≤ ([1, 2] : List ℚ).length ∧
    (confidence_interval tppf [1, 2] 2).1 < ((pymin [1, 2] : ℚ) : ℝ) ∧
    (confidence_interval tppf [1, 2] 2).1 < 0 := by
  have hlo : (confidence_interval tppf [1, 2] 2).1 =
      ((avg_time [1, 2] 2 : ℚ) : ℝ) - tppf 1 * std_err (np_std [1, 2]) 2 :=
    rfl
  have havg : ((avg_time [1, 2] 2 : ℚ) : ℝ) = 3 / 2 := by
    norm_num [avg_time]
  have hmin : ((pymin [1, 2] : ℚ) : ℝ) = 1 := by
    norm_num [pymin]
  refine ⟨by decide, by norm_num, ?_, ?_⟩
  · rw [hlo, havg, std_err_pair, hmin]
    nlinarith
  · rw [hlo, havg, std_err_pair]
    nlinarith

/-- Witness for Claim C10 at the concrete critical value `12.7062`. -/
theorem c10_witness :
    (12 : ℝ) ≤ 12.7062 ∧
    ((∀ x ∈ ([1, 2] : List ℚ), 0 < x) ∧ 2 ≤ ([1, 2] : List ℚ).length ∧
     (confidence_interval (fun _ => 12.7062) [1, 2] 2).1 <
       ((pymin [1, 2] : ℚ) : ℝ) ∧
     (confidence_interval (fun _ => 12.7062) [1, 2] 2).1 < 0) :=
  ⟨by norm_num, c10_interval_not_clamped (fun _ => 12.7062) (by norm_num)⟩
